import Mathlib

/-!
Verification of the enclosure-controller firmware (src/src/main.cpp).

The firmware is a single cooperative control loop (`loop()`) over global
mutable state: two heated zones (`enclosure1`, `enclosure2`), humidity
limits and alarm flags, a menu state machine driven by a rotary encoder
and two buttons, and a single shared buzzer-lock flag.

We embed the loop shallowly: the global variables become a `SysState`
record, one iteration of `loop()` becomes the pure function `loopStep`
from a state and a `CycleInput` (the cycle's sensor readings, clock value
and input-pin levels) to the next state plus an `Effects` record of the
externally visible actions (buzzer sequences, EEPROM writes).  The FastPID
stepping capability is external per the design (an injected
`step(input, setpoint) -> duty` function), so `loopStep` is parameterised
by the two stepping functions.  `millis()` is an unsigned 32-bit counter,
so all timer arithmetic is done modulo 2^32, exactly as the C `unsigned
long` subtraction and division behave.  Temperatures (C `float`) are
modelled as rationals; none of the verified properties depend on
floating-point rounding.

The phases of a cycle are split into separate functions in source order —
sensor ingest, PID/overheat control, encoder navigation, encoder button
dispatch, back button, screen-specific actions, and the two timer checks —
so theorems can speak about the exact program point the specification
refers to.  `displayZone` (the per-zone display routine with the
high-humidity interstitial) is embedded separately as a list of display
actions.
-/

/-- Model of C unsigned 32-bit subtraction `a - b` (values taken mod 2^32),
as used for `millis() - timerStart` and `timerSeconds - elapsed`. -/
def usub32 (a b : Nat) : Nat :=
  (a % 2 ^ 32 + 2 ^ 32 - b % 2 ^ 32) % 2 ^ 32

/-- C truncating integer division (the semantics of `/` on C signed
integers), used for `encoder.read() / 4`. -/
def ctdiv (a : Int) (b : Int) : Int := Int.tdiv a b

/-- C truncating integer remainder (the semantics of `%` on C signed
integers), used for `lastEncoderPos % 2` and `lastEncoderPos % 6`. -/
def ctmod (a : Int) (b : Int) : Int := Int.tmod a b

/-- MAX_MANUAL_RUNTIME_SECONDS (main.cpp line 79): the 56-hour manual
runtime ceiling announced in the firmware's header comment.  The constant
is defined in the source but never read anywhere in the program. -/
def MAX_MANUAL_RUNTIME_SECONDS : Nat := 201600

/-- The `Zone` struct (main.cpp lines 102-115).  `name` identifies the
zone, `currentTemp` is the last ingested reading, `input`/`output`/
`setpoint` are the PID variables, `heaterOn`/`useTimer` the mode flags,
`timerSeconds`/`timerStart`/`manualStart` the runtime bookkeeping.
The `heaterPin` and the `PID*` pointer are hardware plumbing and are not
part of the logical state. -/
structure Zone where
  name : String
  currentTemp : Rat
  targetTemp : Rat
  timerSeconds : Nat
  timerStart : Nat
  heaterOn : Bool
  useTimer : Bool
  manualStart : Nat
  input : Rat
  output : Int
  setpoint : Rat
deriving Repr, DecidableEq

/-- The program's global mutable state (main.cpp lines 86-131 and the two
`Zone` globals), plus the two LEDC heater channel duty values
(`heater1Duty`, `heater2Duty`) so that `ledcWrite` calls are observable. -/
structure SysState where
  enclosure1 : Zone
  enclosure2 : Zone
  lastEncoderPos : Int
  encoderButtonPressed : Bool
  backButtonPressed : Bool
  autoShutoffEnabled : Bool
  beepOnPush : Bool
  screenIndex : Nat
  mainMenuIndex : Nat
  settingsMenuIndex : Nat
  filamentTemp : Rat
  filamentTemp2 : Rat
  humidityLimitF1 : Int
  humidityAlarmF1 : Bool
  humidityLimitF2 : Int
  humidityAlarmF2 : Bool
  humidityLimit1 : Int
  humidityAlarm1 : Bool
  humidityLimit2 : Int
  humidityAlarm2 : Bool
  tuning : Bool
  buzzerLocked : Bool
  heater1Duty : Int
  heater2Duty : Int
deriving Repr, DecidableEq

/-- The external inputs consumed by one iteration of `loop()`: the four
sensor readings (`none` when `sensor.begin()` fails, i.e. the sensor is
unavailable), the raw encoder count, the two button levels (`true` =
pressed, i.e. the pin reads LOW), and the `millis()` value for the cycle. -/
structure CycleInput where
  sensor0 : Option Rat
  sensor3 : Option Rat
  sensor1 : Option Rat
  sensor2 : Option Rat
  encoderRaw : Int
  encoderSw : Bool
  backSw : Bool
  now : Nat
deriving Repr, DecidableEq

/-- Externally visible actions of one cycle: whether the overheat alarm
sequence ran, whether the press-click beep ran, the EEPROM writes
(address, value; booleans stored as 0/1), and which of the per-zone timer
beeps fired (the five-minute single beep and the 30-second four-beeps-plus
-long-beep sequence, per zone). -/
structure Effects where
  overheat : Bool
  click : Bool
  eeprom : List (Nat × Int)
  fiveMin1 : Bool
  thirty1 : Bool
  fiveMin2 : Bool
  thirty2 : Bool
deriving Repr, DecidableEq

/-- Sensor ingest (main.cpp lines 313-329): each of the four channels is
read; on failure (`sensor.begin()` false, modelled by `none`) the previous
value is retained. -/
def ingestPhase (s : SysState) (i : CycleInput) : SysState :=
  { s with
    filamentTemp := i.sensor0.getD s.filamentTemp
    filamentTemp2 := i.sensor3.getD s.filamentTemp2
    enclosure1 := { s.enclosure1 with
      currentTemp := i.sensor1.getD s.enclosure1.currentTemp }
    enclosure2 := { s.enclosure2 with
      currentTemp := i.sensor2.getD s.enclosure2.currentTemp } }

/-- PID control / overheat failsafe (main.cpp lines 331-381).  Skipped
entirely when `tuning` is set.  If either zone's current temperature is at
least 130 °F both heaters are switched off, both channels written 0, the
overheat alarm sequence runs and `buzzerLocked` is set; otherwise each
zone's output is the injected FastPID step of (input, setpoint), the
heater flags are set true and the duties written.  Returns the new state
and whether the overheat alarm ran. -/
def controlPhase (pid1 pid2 : Rat → Rat → Int) (s : SysState) :
    SysState × Bool :=
  if s.tuning then (s, false)
  else
    let s := { s with
      enclosure1 := { s.enclosure1 with input := s.enclosure1.currentTemp }
      enclosure2 := { s.enclosure2 with input := s.enclosure2.currentTemp } }
    if 130 ≤ s.enclosure1.currentTemp ∨ 130 ≤ s.enclosure2.currentTemp then
      ({ s with
          enclosure1 := { s.enclosure1 with heaterOn := false }
          enclosure2 := { s.enclosure2 with heaterOn := false }
          heater1Duty := 0
          heater2Duty := 0
          buzzerLocked := true }, true)
    else
      let o1 := pid1 s.enclosure1.input s.enclosure1.setpoint
      let o2 := pid2 s.enclosure2.input s.enclosure2.setpoint
      ({ s with
          enclosure1 := { s.enclosure1 with output := o1, heaterOn := true }
          enclosure2 := { s.enclosure2 with output := o2, heaterOn := true }
          heater1Duty := o1
          heater2Duty := o2 }, false)

/-- Encoder navigation (main.cpp lines 383-393): the raw count divided by
4 (C truncating division) gives the logical position; on change, the main
or settings menu highlight is recomputed as `abs(pos) % listLength`. -/
def navPhase (s : SysState) (encoderRaw : Int) : SysState :=
  let newPos := ctdiv encoderRaw 4
  if newPos ≠ s.lastEncoderPos then
    let s := { s with lastEncoderPos := newPos }
    if s.screenIndex = 100 then
      { s with mainMenuIndex := newPos.natAbs % 7 }
    else if s.screenIndex = 99 then
      { s with settingsMenuIndex := newPos.natAbs % 4 }
    else s
  else s

/-- Main-menu selection (main.cpp lines 405-432): the highlighted entry
maps to a target screen; entry 5 (SHUT ALL OFF) writes both heater
channels 0 in place; entry 4 (All Sensors) selects screen 3, for which the
display switch has no case. -/
def mainMenuSelect (s : SysState) : SysState :=
  if s.mainMenuIndex = 0 then { s with screenIndex := 10 }
  else if s.mainMenuIndex = 1 then { s with screenIndex := 11 }
  else if s.mainMenuIndex = 2 then { s with screenIndex := 12 }
  else if s.mainMenuIndex = 3 then { s with screenIndex := 13 }
  else if s.mainMenuIndex = 4 then { s with screenIndex := 3 }
  else if s.mainMenuIndex = 5 then
    { s with
      heater1Duty := 0
      heater2Duty := 0 }
  else if s.mainMenuIndex = 6 then { s with screenIndex := 99 }
  else s

/-- Filament-box-1 submenu press action (main.cpp lines 433-446), indexed
by `lastEncoderPos % 2` with C truncating remainder (a negative position
matches no case). -/
def dispatch12 (s : SysState) : SysState × List (Nat × Int) :=
  if ctmod s.lastEncoderPos 2 = 0 then ({ s with screenIndex := 26 }, [])
  else if ctmod s.lastEncoderPos 2 = 1 then
    let v := !s.humidityAlarmF1
    ({ s with humidityAlarmF1 := v }, [(18, if v then 1 else 0)])
  else (s, [])

/-- Filament-box-2 submenu press action (main.cpp lines 447-460). -/
def dispatch13 (s : SysState) : SysState × List (Nat × Int) :=
  if ctmod s.lastEncoderPos 2 = 0 then ({ s with screenIndex := 36 }, [])
  else if ctmod s.lastEncoderPos 2 = 1 then
    let v := !s.humidityAlarmF2
    ({ s with humidityAlarmF2 := v }, [(19, if v then 1 else 0)])
  else (s, [])

/-- Enclosure-1 submenu press action (main.cpp lines 461-488), indexed by
`lastEncoderPos % 6` (C truncating remainder; negative positions match no
case): temperature-set screen, timer-mode toggle, timer-duration screen,
view (re-select screen 10), humidity-limit screen, alarm toggle with
EEPROM write-through. -/
def dispatch10 (s : SysState) : SysState × List (Nat × Int) :=
  if ctmod s.lastEncoderPos 6 = 0 then ({ s with screenIndex := 24 }, [])
  else if ctmod s.lastEncoderPos 6 = 1 then
    ({ s with enclosure1 :=
        { s.enclosure1 with useTimer := !s.enclosure1.useTimer } }, [])
  else if ctmod s.lastEncoderPos 6 = 2 then ({ s with screenIndex := 20 }, [])
  else if ctmod s.lastEncoderPos 6 = 3 then ({ s with screenIndex := 10 }, [])
  else if ctmod s.lastEncoderPos 6 = 4 then ({ s with screenIndex := 25 }, [])
  else if ctmod s.lastEncoderPos 6 = 5 then
    let v := !s.humidityAlarm1
    ({ s with humidityAlarm1 := v }, [(16, if v then 1 else 0)])
  else (s, [])

/-- Enclosure-2 submenu press action (main.cpp lines 489-516). -/
def dispatch11 (s : SysState) : SysState × List (Nat × Int) :=
  if ctmod s.lastEncoderPos 6 = 0 then ({ s with screenIndex := 34 }, [])
  else if ctmod s.lastEncoderPos 6 = 1 then
    ({ s with enclosure2 :=
        { s.enclosure2 with useTimer := !s.enclosure2.useTimer } }, [])
  else if ctmod s.lastEncoderPos 6 = 2 then ({ s with screenIndex := 30 }, [])
  else if ctmod s.lastEncoderPos 6 = 3 then ({ s with screenIndex := 11 }, [])
  else if ctmod s.lastEncoderPos 6 = 4 then ({ s with screenIndex := 35 }, [])
  else if ctmod s.lastEncoderPos 6 = 5 then
    let v := !s.humidityAlarm2
    ({ s with humidityAlarm2 := v }, [(17, if v then 1 else 0)])
  else (s, [])

/-- Settings-menu press action (main.cpp lines 517-531): indices 0/1 only
log a message (FastPID tuning is static), 2 toggles auto-shutoff, 3
toggles the press beep. -/
def settingsSelect (s : SysState) : SysState :=
  if s.settingsMenuIndex = 2 then
    { s with autoShutoffEnabled := !s.autoShutoffEnabled }
  else if s.settingsMenuIndex = 3 then
    { s with beepOnPush := !s.beepOnPush }
  else s

/-- The per-screen routing of a button-press edge (the body of the press
branch, main.cpp lines 404-532). -/
def pressDispatch (s : SysState) : SysState × List (Nat × Int) :=
  if s.screenIndex = 100 then (mainMenuSelect s, [])
  else if s.screenIndex = 12 then dispatch12 s
  else if s.screenIndex = 13 then dispatch13 s
  else if s.screenIndex = 10 then dispatch10 s
  else if s.screenIndex = 11 then dispatch11 s
  else if s.screenIndex = 99 then (settingsSelect s, [])
  else (s, [])

/-- Encoder button handling (main.cpp lines 395-534).  On a press edge
(pin LOW and latch clear) the latch is set, the optional click beep runs
and the screen-specific action dispatches; on release the latch clears.
Returns the new state, whether the click beep ran, and the EEPROM
writes. -/
def buttonPhase (s : SysState) (encoderSw : Bool) :
    SysState × Bool × List (Nat × Int) :=
  if encoderSw ∧ ¬s.encoderButtonPressed then
    let click := s.beepOnPush
    let r := pressDispatch { s with encoderButtonPressed := true }
    (r.1, click, r.2)
  else if ¬encoderSw then
    ({ s with encoderButtonPressed := false }, false, [])
  else (s, false, [])

/-- Back button (main.cpp lines 536-542): a press edge jumps to the root
menu (screen 100); the latch clears on release. -/
def backPhase (s : SysState) (backSw : Bool) : SysState :=
  if backSw ∧ ¬s.backButtonPressed then
    { s with
      backButtonPressed := true
      screenIndex := 100 }
  else if ¬backSw then
    { s with backButtonPressed := false }
  else s

/-- Value-adjust action of screen 26 (main.cpp lines 621-636): the
filament-box-1 humidity limit is set to the live encoder value
`30 + abs(pos) % 70` and written to EEPROM, every cycle the screen is
shown. -/
def act26 (s : SysState) : SysState × List (Nat × Int) :=
  let limit : Int := 30 + (s.lastEncoderPos.natAbs % 70 : Nat)
  ({ s with humidityLimitF1 := limit }, [(8, limit)])

/-- Value-adjust action of screen 36 (main.cpp lines 637-652). -/
def act36 (s : SysState) : SysState × List (Nat × Int) :=
  let limit : Int := 30 + (s.lastEncoderPos.natAbs % 70 : Nat)
  ({ s with humidityLimitF2 := limit }, [(12, limit)])

/-- Value-adjust action of screen 24 (main.cpp lines 659-672): enclosure
1's PID setpoint is set to the live encoder value `70 + abs(pos) % 51`,
every cycle the screen is shown. -/
def act24 (s : SysState) : SysState × List (Nat × Int) :=
  let tempSet : Nat := 70 + s.lastEncoderPos.natAbs % 51
  ({ s with enclosure1 := { s.enclosure1 with setpoint := tempSet } }, [])

/-- Value-adjust action of screen 34 (main.cpp lines 673-686). -/
def act34 (s : SysState) : SysState × List (Nat × Int) :=
  let tempSet : Nat := 70 + s.lastEncoderPos.natAbs % 51
  ({ s with enclosure2 := { s.enclosure2 with setpoint := tempSet } }, [])

/-- Value-adjust action of screen 25 (main.cpp lines 687-702): enclosure
1's humidity limit is set to the live encoder value and written to
EEPROM, every cycle the screen is shown. -/
def act25 (s : SysState) : SysState × List (Nat × Int) :=
  let limit : Int := 30 + (s.lastEncoderPos.natAbs % 70 : Nat)
  ({ s with humidityLimit1 := limit }, [(0, limit)])

/-- Value-adjust action of screen 35 (main.cpp lines 703-718). -/
def act35 (s : SysState) : SysState × List (Nat × Int) :=
  let limit : Int := 30 + (s.lastEncoderPos.natAbs % 70 : Nat)
  ({ s with humidityLimit2 := limit }, [(4, limit)])

/-- Screen 20 (main.cpp lines 719-724): toggles enclosure 1's timer mode
and moves to the duration-set screen 21. -/
def act20 (s : SysState) : SysState × List (Nat × Int) :=
  ({ s with
      screenIndex := 21
      enclosure1 :=
        { s.enclosure1 with useTimer := !s.enclosure1.useTimer } }, [])

/-- Screen 21 (main.cpp lines 725-730): enclosure 1's timer duration is
set to `max(abs(pos) % 289, 2) * 600` seconds, every cycle the screen is
shown. -/
def act21 (s : SysState) : SysState × List (Nat × Int) :=
  ({ s with enclosure1 := { s.enclosure1 with
      timerSeconds := max (s.lastEncoderPos.natAbs % 289) 2 * 600 } }, [])

/-- Screen 22 (main.cpp lines 731-737): arms enclosure 1's timer
(`timerStart = millis()`, heater on) and moves to the countdown screen
23.  No transition in the program ever sets `screenIndex = 22`, so this
block is dead code. -/
def act22 (s : SysState) (now : Nat) : SysState × List (Nat × Int) :=
  ({ s with
      screenIndex := 23
      enclosure1 := { s.enclosure1 with
        timerStart := now
        heaterOn := true } }, [])

/-- Screen 30 (main.cpp lines 738-743): zone-2 counterpart of screen 20. -/
def act30 (s : SysState) : SysState × List (Nat × Int) :=
  ({ s with
      screenIndex := 31
      enclosure2 :=
        { s.enclosure2 with useTimer := !s.enclosure2.useTimer } }, [])

/-- Screen 31 (main.cpp lines 744-749): zone-2 counterpart of screen 21. -/
def act31 (s : SysState) : SysState × List (Nat × Int) :=
  ({ s with enclosure2 := { s.enclosure2 with
      timerSeconds := max (s.lastEncoderPos.natAbs % 289) 2 * 600 } }, [])

/-- Screen 32 (main.cpp lines 750-756): zone-2 counterpart of screen 22;
also dead code (no transition assigns `screenIndex = 32`). -/
def act32 (s : SysState) (now : Nat) : SysState × List (Nat × Int) :=
  ({ s with
      screenIndex := 33
      enclosure2 := { s.enclosure2 with
        timerStart := now
        heaterOn := true } }, [])

/-- The state-mutating cases of the display switch (main.cpp lines
544-757).  Pure display screens (100, 99, 10-14, 23, 33) change nothing;
the remaining cases dispatch to the per-screen actions above.  Returns
the new state and the EEPROM writes. -/
def screenPhase (s : SysState) (now : Nat) : SysState × List (Nat × Int) :=
  if s.screenIndex = 26 then act26 s
  else if s.screenIndex = 36 then act36 s
  else if s.screenIndex = 24 then act24 s
  else if s.screenIndex = 34 then act34 s
  else if s.screenIndex = 25 then act25 s
  else if s.screenIndex = 35 then act35 s
  else if s.screenIndex = 20 then act20 s
  else if s.screenIndex = 21 then act21 s
  else if s.screenIndex = 22 then act22 s now
  else if s.screenIndex = 30 then act30 s
  else if s.screenIndex = 31 then act31 s
  else if s.screenIndex = 32 then act32 s now
  else (s, [])

/-- Elapsed whole seconds of a running timer:
`(millis() - timerStart) / 1000UL` with 32-bit unsigned subtraction. -/
def elapsedSec (now timerStart : Nat) : Nat :=
  usub32 now timerStart / 1000

/-- Remaining seconds of a running timer: `timerSeconds - elapsed` as
32-bit unsigned subtraction — it wraps to a huge value once the timer has
overrun. -/
def remainingSec (timerSeconds elapsed : Nat) : Nat :=
  usub32 timerSeconds elapsed

/-- Timer check for zone 1 (main.cpp lines 759-791), guarded by
`useTimer && heaterOn`.  The five-minute beep runs when `remaining` equals
exactly 300 and the buzzer lock is clear; the 30-second sequence runs when
`remaining ∈ (0,30]` and the lock is clear, and sets the lock; when
`elapsed ≥ timerSeconds` the heater is switched off, channel written 0 and
the lock cleared.  Returns the state plus the (fiveMin, thirty) firings. -/
def timerPhase1 (s : SysState) (now : Nat) : SysState × Bool × Bool :=
  if s.enclosure1.useTimer ∧ s.enclosure1.heaterOn then
    let elapsed := elapsedSec now s.enclosure1.timerStart
    let remaining := remainingSec s.enclosure1.timerSeconds elapsed
    let fiveMin := remaining = 300 ∧ ¬s.buzzerLocked
    let thirty := remaining ≤ 30 ∧ 0 < remaining ∧ ¬s.buzzerLocked
    let s := if thirty then { s with buzzerLocked := true } else s
    let s :=
      if s.enclosure1.timerSeconds ≤ elapsed then
        { s with
          enclosure1 := { s.enclosure1 with heaterOn := false }
          heater1Duty := 0
          buzzerLocked := false }
      else s
    (s, fiveMin, thirty)
  else (s, false, false)

/-- Timer check for zone 2 (main.cpp lines 793-824), identical to
`timerPhase1` with zone 2's fields and heater channel 1. -/
def timerPhase2 (s : SysState) (now : Nat) : SysState × Bool × Bool :=
  if s.enclosure2.useTimer ∧ s.enclosure2.heaterOn then
    let elapsed := elapsedSec now s.enclosure2.timerStart
    let remaining := remainingSec s.enclosure2.timerSeconds elapsed
    let fiveMin := remaining = 300 ∧ ¬s.buzzerLocked
    let thirty := remaining ≤ 30 ∧ 0 < remaining ∧ ¬s.buzzerLocked
    let s := if thirty then { s with buzzerLocked := true } else s
    let s :=
      if s.enclosure2.timerSeconds ≤ elapsed then
        { s with
          enclosure2 := { s.enclosure2 with heaterOn := false }
          heater2Duty := 0
          buzzerLocked := false }
      else s
    (s, fiveMin, thirty)
  else (s, false, false)

/-- One full iteration of `loop()` (main.cpp lines 311-828): sensor
ingest, PID/overheat control, encoder navigation, encoder button dispatch,
back button, per-screen actions, then the two timer checks.  The trailing
`updateScreen()` call is declared but never defined in the repository and
renders only, so it is a no-op here. -/
def loopStep (pid1 pid2 : Rat → Rat → Int) (s : SysState)
    (i : CycleInput) : SysState × Effects :=
  let s1 := ingestPhase s i
  let c := controlPhase pid1 pid2 s1
  let s2 := navPhase c.1 i.encoderRaw
  let b := buttonPhase s2 i.encoderSw
  let s3 := backPhase b.1 i.backSw
  let sc := screenPhase s3 i.now
  let t1 := timerPhase1 sc.1 i.now
  let t2 := timerPhase2 t1.1 i.now
  (t2.1,
    { overheat := c.2, click := b.2.1, eeprom := b.2.2 ++ sc.2,
      fiveMin1 := t1.2.1, thirty1 := t1.2.2,
      fiveMin2 := t2.2.1, thirty2 := t2.2.2 })

/-- Display and buzzer actions a display routine can emit (for
`displayZone`, main.cpp lines 179-223).  The font selection is purely
cosmetic and omitted; everything else, including the blocking delays and
any buzzer pin write, is recorded. -/
inductive DispAct where
  | clearBuffer
  | sendBuffer
  | clearScreen
  | setCursor (x y : Nat)
  | printStr (t : String)
  | printRat (v : Rat)
  | delayMs (n : Nat)
  | buzzerWrite (low : Bool)
deriving Repr, DecidableEq

/-- Test whether a zone name contains a given character; this is the
shallow rendering of `z.name.indexOf("1") >= 0` (the needle is a single
character, so substring search and character search coincide). -/
def nameHasChar (n : String) (c : Char) : Bool := n.data.contains c

/-- The high-humidity interstitial condition of `displayZone` (main.cpp
lines 204-205): the zone's name selects which enclosure limit and alarm
flag apply, the reading must strictly exceed the limit and the alarm flag
must be enabled. -/
def highHumidityCond (sys : SysState) (z : Zone) (hum : Rat) : Bool :=
  (nameHasChar z.name (Char.ofNat 49) && decide ((sys.humidityLimit1 : Rat) < hum)
      && sys.humidityAlarm1) ||
  (nameHasChar z.name (Char.ofNat 50) && decide ((sys.humidityLimit2 : Rat) < hum)
      && sys.humidityAlarm2)

/-- The `displayZone` routine (main.cpp lines 179-223) as the list of
display/buzzer actions it performs.  `humReading` is the humidity sensor
result for the zone's channel (`none` when `sensor.begin()` fails, in
which case the local `hum` stays 0).  When the high-humidity condition
holds, the blocking interstitial block (flash "HIGH HUMIDITY!" with two
delays) is emitted in the middle; the routine performs no buzzer write on
any path. -/
def displayZone (sys : SysState) (z : Zone) (humReading : Option Rat) :
    List DispAct :=
  let hum := humReading.getD 0
  [DispAct.clearBuffer,
   DispAct.setCursor 0 12, DispAct.printStr z.name,
   DispAct.setCursor 0 28, DispAct.printStr "Temp: ",
   DispAct.printRat z.currentTemp, DispAct.printStr " F",
   DispAct.setCursor 0 40, DispAct.printStr "Humidity: ",
   DispAct.printRat hum, DispAct.printStr " %",
   DispAct.setCursor 0 52] ++
  (if highHumidityCond sys z hum then
    [DispAct.clearBuffer, DispAct.setCursor 0 24,
     DispAct.printStr "HIGH HUMIDITY!",
     DispAct.setCursor 0 44, DispAct.printStr z.name,
     DispAct.sendBuffer, DispAct.delayMs 500,
     DispAct.clearScreen, DispAct.sendBuffer, DispAct.delayMs 300]
   else []) ++
  [DispAct.setCursor 0 56, DispAct.printStr "Heater: ",
   DispAct.printStr (if z.heaterOn then "ON" else "OFF"),
   DispAct.sendBuffer]

/-- The zone `enclosure1`'s initial value (main.cpp line 117). -/
def enclosure1Init : Zone :=
  { name := "3D Enclosure 1", currentTemp := 0, targetTemp := 90,
    timerSeconds := 0, timerStart := 0, heaterOn := false, useTimer := true,
    manualStart := 0, input := 0, output := 0, setpoint := 90 }

/-- The zone `enclosure2`'s initial value (main.cpp line 120). -/
def enclosure2Init : Zone :=
  { name := "3D Enclosure 2", currentTemp := 0, targetTemp := 90,
    timerSeconds := 0, timerStart := 0, heaterOn := false, useTimer := true,
    manualStart := 0, input := 0, output := 0, setpoint := 90 }

/-- The global state at boot (main.cpp lines 86-131; `setup()` restores
the persisted humidity limits and flags, for which we keep the source
defaults — the theorems that use `initState` do not depend on them). -/
def initState : SysState :=
  { enclosure1 := enclosure1Init, enclosure2 := enclosure2Init,
    lastEncoderPos := 0, encoderButtonPressed := false,
    backButtonPressed := false, autoShutoffEnabled := true,
    beepOnPush := true, screenIndex := 100, mainMenuIndex := 0,
    settingsMenuIndex := 0, filamentTemp := 0, filamentTemp2 := 0,
    humidityLimitF1 := 65, humidityAlarmF1 := false,
    humidityLimitF2 := 65, humidityAlarmF2 := false,
    humidityLimit1 := 65, humidityAlarm1 := false,
    humidityLimit2 := 65, humidityAlarm2 := false,
    tuning := false, buzzerLocked := false,
    heater1Duty := 0, heater2Duty := 0 }

/-- States reachable from boot by running whole loop cycles, with
arbitrary inputs and arbitrary injected PID stepping functions each
cycle. -/
inductive Reachable : SysState → Prop where
  | init : Reachable initState
  | step (pid1 pid2 : Rat → Rat → Int) (i : CycleInput) {s : SysState} :
      Reachable s → Reachable (loopStep pid1 pid2 s i).1

/-- A concrete injected PID stepping function used in witnesses and
counterexamples (the FastPID capability is external, so any function of
(input, setpoint) is a legitimate instantiation). -/
def pidConst : Rat → Rat → Int := fun _ _ => 100

/-- Cycle input with an overheated enclosure-1 reading (135 °F ≥ 130 °F)
and no user input. -/
def inpOverheat : CycleInput :=
  { sensor0 := none, sensor3 := none, sensor1 := some 135, sensor2 := none,
    encoderRaw := 0, encoderSw := false, backSw := false, now := 1000 }

/-- Cycle 1 of the no-latch trace: a button press on the root menu with
highlight 0 enters the enclosure-1 submenu (screen 10). -/
def c2i1 : CycleInput :=
  { sensor0 := none, sensor3 := none, sensor1 := none, sensor2 := none,
    encoderRaw := 0, encoderSw := true, backSw := false, now := 1000 }

/-- Cycle 2: button released, encoder turned one detent (raw 4, logical
position 1). -/
def c2i2 : CycleInput :=
  { sensor0 := none, sensor3 := none, sensor1 := none, sensor2 := none,
    encoderRaw := 4, encoderSw := false, backSw := false, now := 2000 }

/-- Cycle 3: button pressed again; on screen 10 with position 1 this
toggles enclosure 1 into manual mode. -/
def c2i3 : CycleInput :=
  { sensor0 := none, sensor3 := none, sensor1 := none, sensor2 := none,
    encoderRaw := 4, encoderSw := true, backSw := false, now := 3000 }

/-- Cycle 4: enclosure 1 reads 135 °F — the overheat failsafe trips. -/
def c2i4 : CycleInput :=
  { sensor0 := none, sensor3 := none, sensor1 := some 135, sensor2 := none,
    encoderRaw := 4, encoderSw := false, backSw := false, now := 4000 }

/-- Cycle 5: enclosure 1 has cooled to 120 °F. -/
def c2i5 : CycleInput :=
  { sensor0 := none, sensor3 := none, sensor1 := some 120, sensor2 := none,
    encoderRaw := 4, encoderSw := false, backSw := false, now := 5000 }

/-- State after cycle 1 of the no-latch trace, starting at boot. -/
def c2s1 : SysState := (loopStep pidConst pidConst initState c2i1).1

/-- State after cycle 2. -/
def c2s2 : SysState := (loopStep pidConst pidConst c2s1 c2i2).1

/-- State after cycle 3 (enclosure 1 now in manual mode). -/
def c2s3 : SysState := (loopStep pidConst pidConst c2s2 c2i3).1

/-- State after cycle 4 — the overheat shutdown state: both heaters off,
both channels 0, buzzer lock set. -/
def c2s4 : SysState := (loopStep pidConst pidConst c2s3 c2i4).1

/-- State after cycle 5: with the reading back below 130 °F the control
step has re-enabled heater 1 with a live PID duty. -/
def c2s5 : SysState := (loopStep pidConst pidConst c2s4 c2i5).1

/-- Armed timer-mode state for zone 1: timer of 1000 s started at
`millis() = 0`, heater on. -/
def c3s : SysState :=
  { initState with enclosure1 := { enclosure1Init with
      heaterOn := true, timerSeconds := 1000, timerStart := 0 } }

/-- Cycle input at 5 s into the countdown whose enclosure-1 sensor reads
135 °F. -/
def c3i : CycleInput :=
  { sensor0 := none, sensor3 := none, sensor1 := some 135, sensor2 := none,
    encoderRaw := 0, encoderSw := false, backSw := false, now := 5000 }

/-- Armed timer-mode state for zone 1 used for the five-minute-warning
trace: timer of 1000 s started at 0, heater on. -/
def c4s : SysState :=
  { initState with enclosure1 := { enclosure1Init with
      heaterOn := true, timerSeconds := 1000, timerStart := 0 } }

/-- Quiet cycle at 698 s (remaining 302 s, still above the 300 s mark). -/
def c4iA : CycleInput :=
  { sensor0 := none, sensor3 := none, sensor1 := none, sensor2 := none,
    encoderRaw := 0, encoderSw := false, backSw := false, now := 698000 }

/-- Quiet cycle at 701 s (remaining 299 s — the 300 s mark was crossed
between the cycles without ever being equal to 300). -/
def c4iB : CycleInput :=
  { sensor0 := none, sensor3 := none, sensor1 := none, sensor2 := none,
    encoderRaw := 0, encoderSw := false, backSw := false, now := 701000 }

/-- State after the 698 s cycle. -/
def c4sA : SysState := (loopStep pidConst pidConst c4s c4iA).1

/-- Both zones armed: zone 1 with a 120 s timer, zone 2 with a 100 s
timer, both started at 0. -/
def c5s : SysState :=
  { initState with
      enclosure1 := { enclosure1Init with
        heaterOn := true, timerSeconds := 120, timerStart := 0 }
      enclosure2 := { enclosure2Init with
        heaterOn := true, timerSeconds := 100, timerStart := 0 } }

/-- Quiet cycle at 80 s: zone 2 enters its 30-second window and fires the
sequence, setting the shared buzzer lock. -/
def c5i1 : CycleInput :=
  { sensor0 := none, sensor3 := none, sensor1 := none, sensor2 := none,
    encoderRaw := 0, encoderSw := false, backSw := false, now := 80000 }

/-- Quiet cycle at 100 s: zone 1 is now inside its own 30-second window
but the shared lock suppresses its sequence; zone 2 completes. -/
def c5i2 : CycleInput :=
  { sensor0 := none, sensor3 := none, sensor1 := none, sensor2 := none,
    encoderRaw := 0, encoderSw := false, backSw := false, now := 100000 }

/-- Quiet cycle at 121 s: zone 1's timer completes without its sequence
ever having fired. -/
def c5i3 : CycleInput :=
  { sensor0 := none, sensor3 := none, sensor1 := none, sensor2 := none,
    encoderRaw := 0, encoderSw := false, backSw := false, now := 121000 }

/-- State after the 80 s cycle (buzzer lock held by zone 2's firing). -/
def c5sA : SysState := (loopStep pidConst pidConst c5s c5i1).1

/-- State after the 100 s cycle (zone 2 completed, lock released — too
late for zone 1's window). -/
def c5sB : SysState := (loopStep pidConst pidConst c5sA c5i2).1

/-- Manual-mode state for zone 1 (timer mode off) with auto-shutoff
enabled (the boot default) and `manualStart = 0`. -/
def c6s : SysState :=
  { initState with enclosure1 := { enclosure1Init with useTimer := false } }

/-- Cycle input at 201 601 s (one second past the 56-hour ceiling) with a
cool 80 °F reading. -/
def c6i : CycleInput :=
  { sensor0 := none, sensor3 := none, sensor1 := some 80, sensor2 := none,
    encoderRaw := 0, encoderSw := false, backSw := false, now := 201601000 }

/-- Manual-mode state whose zone-1 heater is off with a last-known
temperature of 80 °F. -/
def c7s : SysState :=
  { initState with enclosure1 := { enclosure1Init with
      useTimer := false, currentTemp := 80 } }

/-- Cycle input on which every sensor reports unavailable. -/
def c7i : CycleInput :=
  { sensor0 := none, sensor3 := none, sensor1 := none, sensor2 := none,
    encoderRaw := 0, encoderSw := false, backSw := false, now := 1000 }

/-- State sitting on the enclosure-1 temperature-set screen (24) with
logical encoder position 10 and the boot setpoint 90 °F. -/
def c8s : SysState :=
  { initState with
      screenIndex := 24
      lastEncoderPos := 10
      enclosure1 := { enclosure1Init with useTimer := false } }

/-- State sitting on the enclosure-1 humidity-limit screen (25) with
logical encoder position 10 and the boot limit 65 %. -/
def c8s25 : SysState :=
  { initState with
      screenIndex := 25
      lastEncoderPos := 10 }

/-- Cycle input with no button press and the encoder resting at raw count
40 (logical position 10, unchanged). -/
def c8i : CycleInput :=
  { sensor0 := none, sensor3 := none, sensor1 := none, sensor2 := none,
    encoderRaw := 40, encoderSw := false, backSw := false, now := 1000 }

/-!  Theorems -/

lemma nameHasChar_enc1_one : nameHasChar "3D Enclosure 1" (Char.ofNat 49) = true := by
  decide

lemma nameHasChar_enc1_two : nameHasChar "3D Enclosure 1" (Char.ofNat 50) = false := by
  decide

lemma nameHasChar_enc2_one : nameHasChar "3D Enclosure 2" (Char.ofNat 49) = false := by
  decide

lemma nameHasChar_enc2_two : nameHasChar "3D Enclosure 2" (Char.ofNat 50) = true := by
  decide

/-- C9: for the two enclosure zones, the blocking high-humidity
interstitial is emitted by `displayZone` if and only if the zone's
measured humidity strictly exceeds its configured limit and its alarm
flag is enabled, and `displayZone` performs no buzzer write on any path. -/
theorem humidity_interstitial_iff (sys : SysState) (z : Zone)
    (hum : Option Rat)
    (h : z.name = "3D Enclosure 1" ∨ z.name = "3D Enclosure 2") :
    (DispAct.printStr "HIGH HUMIDITY!" ∈ displayZone sys z hum ↔
      (if z.name = "3D Enclosure 1" then
        (sys.humidityLimit1 : Rat) < hum.getD 0 ∧ sys.humidityAlarm1 = true
      else
        (sys.humidityLimit2 : Rat) < hum.getD 0 ∧ sys.humidityAlarm2 = true)) ∧
    (∀ b, DispAct.buzzerWrite b ∉ displayZone sys z hum) := by
  rcases h with h | h <;> cases hz : z.heaterOn <;>
    simp only [displayZone, highHumidityCond, h, hz, nameHasChar_enc1_one,
      nameHasChar_enc1_two, nameHasChar_enc2_one, nameHasChar_enc2_two,
      Bool.true_and, Bool.false_and, Bool.or_false, Bool.false_or,
      Bool.and_eq_true, decide_eq_true_eq, Bool.false_eq_true, if_true,
      if_false] <;>
    constructor <;>
    first
      | (intro b; split <;> simp)
      | (split <;> simp_all)

/-- Witness for `humidity_interstitial_iff`: at a concrete state with
limit 65, alarm enabled and a reading of 70 % the interstitial is shown. -/
theorem humidity_interstitial_iff_witness :
    (enclosure1Init.name = "3D Enclosure 1" ∨
      enclosure1Init.name = "3D Enclosure 2") ∧
    DispAct.printStr "HIGH HUMIDITY!" ∈
      displayZone { initState with humidityAlarm1 := true } enclosure1Init
        (some 70) := by
  refine ⟨Or.inl rfl, ?_⟩
  exact ((humidity_interstitial_iff
    { initState with humidityAlarm1 := true } enclosure1Init (some 70)
    (Or.inl rfl)).1.mpr (by decide)
    )

lemma ingestPhase_pres (s : SysState) (i : CycleInput) :
    (ingestPhase s i).tuning = s.tuning ∧
    (ingestPhase s i).screenIndex = s.screenIndex := ⟨rfl, rfl⟩

lemma controlPhase_pres (p q : Rat → Rat → Int) (s : SysState) :
    (controlPhase p q s).1.tuning = s.tuning ∧
    (controlPhase p q s).1.screenIndex = s.screenIndex := by
  unfold controlPhase
  simp only []
  split_ifs <;> exact ⟨rfl, rfl⟩

lemma navPhase_pres (s : SysState) (r : Int) :
    (navPhase s r).enclosure1 = s.enclosure1 ∧
    (navPhase s r).enclosure2 = s.enclosure2 ∧
    (navPhase s r).heater1Duty = s.heater1Duty ∧
    (navPhase s r).heater2Duty = s.heater2Duty ∧
    (navPhase s r).tuning = s.tuning ∧
    (navPhase s r).buzzerLocked = s.buzzerLocked ∧
    (navPhase s r).screenIndex = s.screenIndex := by
  unfold navPhase
  simp only []
  split_ifs <;> exact ⟨rfl, rfl, rfl, rfl, rfl, rfl, rfl⟩

lemma mainMenuSelect_pres (s : SysState) :
    (mainMenuSelect s).enclosure1 = s.enclosure1 ∧
    (mainMenuSelect s).enclosure2 = s.enclosure2 ∧
    ((mainMenuSelect s).heater1Duty = s.heater1Duty ∨
      (mainMenuSelect s).heater1Duty = 0) ∧
    ((mainMenuSelect s).heater2Duty = s.heater2Duty ∨
      (mainMenuSelect s).heater2Duty = 0) ∧
    (mainMenuSelect s).tuning = s.tuning ∧
    (mainMenuSelect s).buzzerLocked = s.buzzerLocked ∧
    ((mainMenuSelect s).screenIndex = s.screenIndex ∨
      (mainMenuSelect s).screenIndex ∈
        [10, 11, 12, 13, 3, 99, 26, 36, 24, 20, 25, 34, 30, 35]) := by
  unfold mainMenuSelect
  split_ifs <;> simp

lemma dispatch12_pres (s : SysState) :
    (dispatch12 s).1.enclosure1 = s.enclosure1 ∧
    (dispatch12 s).1.enclosure2 = s.enclosure2 ∧
    ((dispatch12 s).1.heater1Duty = s.heater1Duty ∨
      (dispatch12 s).1.heater1Duty = 0) ∧
    ((dispatch12 s).1.heater2Duty = s.heater2Duty ∨
      (dispatch12 s).1.heater2Duty = 0) ∧
    (dispatch12 s).1.tuning = s.tuning ∧
    (dispatch12 s).1.buzzerLocked = s.buzzerLocked ∧
    ((dispatch12 s).1.screenIndex = s.screenIndex ∨
      (dispatch12 s).1.screenIndex ∈
        [10, 11, 12, 13, 3, 99, 26, 36, 24, 20, 25, 34, 30, 35]) := by
  unfold dispatch12
  simp only []
  split_ifs <;> simp

lemma dispatch13_pres (s : SysState) :
    (dispatch13 s).1.enclosure1 = s.enclosure1 ∧
    (dispatch13 s).1.enclosure2 = s.enclosure2 ∧
    ((dispatch13 s).1.heater1Duty = s.heater1Duty ∨
      (dispatch13 s).1.heater1Duty = 0) ∧
    ((dispatch13 s).1.heater2Duty = s.heater2Duty ∨
      (dispatch13 s).1.heater2Duty = 0) ∧
    (dispatch13 s).1.tuning = s.tuning ∧
    (dispatch13 s).1.buzzerLocked = s.buzzerLocked ∧
    ((dispatch13 s).1.screenIndex = s.screenIndex ∨
      (dispatch13 s).1.screenIndex ∈
        [10, 11, 12, 13, 3, 99, 26, 36, 24, 20, 25, 34, 30, 35]) := by
  unfold dispatch13
  simp only []
  split_ifs <;> simp

lemma dispatch10_pres (s : SysState) :
    (dispatch10 s).1.enclosure1.heaterOn = s.enclosure1.heaterOn ∧
    (dispatch10 s).1.enclosure2 = s.enclosure2 ∧
    ((dispatch10 s).1.heater1Duty = s.heater1Duty ∨
      (dispatch10 s).1.heater1Duty = 0) ∧
    ((dispatch10 s).1.heater2Duty = s.heater2Duty ∨
      (dispatch10 s).1.heater2Duty = 0) ∧
    (dispatch10 s).1.tuning = s.tuning ∧
    (dispatch10 s).1.buzzerLocked = s.buzzerLocked ∧
    ((dispatch10 s).1.screenIndex = s.screenIndex ∨
      (dispatch10 s).1.screenIndex ∈
        [10, 11, 12, 13, 3, 99, 26, 36, 24, 20, 25, 34, 30, 35]) := by
  unfold dispatch10
  simp only []
  split_ifs <;> simp

lemma dispatch11_pres (s : SysState) :
    (dispatch11 s).1.enclosure1 = s.enclosure1 ∧
    (dispatch11 s).1.enclosure2.heaterOn = s.enclosure2.heaterOn ∧
    ((dispatch11 s).1.heater1Duty = s.heater1Duty ∨
      (dispatch11 s).1.heater1Duty = 0) ∧
    ((dispatch11 s).1.heater2Duty = s.heater2Duty ∨
      (dispatch11 s).1.heater2Duty = 0) ∧
    (dispatch11 s).1.tuning = s.tuning ∧
    (dispatch11 s).1.buzzerLocked = s.buzzerLocked ∧
    ((dispatch11 s).1.screenIndex = s.screenIndex ∨
      (dispatch11 s).1.screenIndex ∈
        [10, 11, 12, 13, 3, 99, 26, 36, 24, 20, 25, 34, 30, 35]) := by
  unfold dispatch11
  simp only []
  split_ifs <;> simp

lemma settingsSelect_pres (s : SysState) :
    (settingsSelect s).enclosure1 = s.enclosure1 ∧
    (settingsSelect s).enclosure2 = s.enclosure2 ∧
    (settingsSelect s).heater1Duty = s.heater1Duty ∧
    (settingsSelect s).heater2Duty = s.heater2Duty ∧
    (settingsSelect s).tuning = s.tuning ∧
    (settingsSelect s).buzzerLocked = s.buzzerLocked ∧
    (settingsSelect s).screenIndex = s.screenIndex := by
  unfold settingsSelect
  split_ifs <;> simp

lemma pressDispatch_pres (s : SysState) :
    (pressDispatch s).1.enclosure1.heaterOn = s.enclosure1.heaterOn ∧
    (pressDispatch s).1.enclosure2.heaterOn = s.enclosure2.heaterOn ∧
    ((pressDispatch s).1.heater1Duty = s.heater1Duty ∨
      (pressDispatch s).1.heater1Duty = 0) ∧
    ((pressDispatch s).1.heater2Duty = s.heater2Duty ∨
      (pressDispatch s).1.heater2Duty = 0) ∧
    (pressDispatch s).1.tuning = s.tuning ∧
    (pressDispatch s).1.buzzerLocked = s.buzzerLocked ∧
    ((pressDispatch s).1.screenIndex = s.screenIndex ∨
      (pressDispatch s).1.screenIndex ∈
        [10, 11, 12, 13, 3, 99, 26, 36, 24, 20, 25, 34, 30, 35]) := by
  unfold pressDispatch
  split_ifs
  · have h := mainMenuSelect_pres s
    simp_all
  · have h := dispatch12_pres s
    simp_all
  · have h := dispatch13_pres s
    simp_all
  · have h := dispatch10_pres s
    simp_all
  · have h := dispatch11_pres s
    simp_all
  · have h := settingsSelect_pres s
    simp_all
  · simp

lemma buttonPhase_pres (s : SysState) (b : Bool) :
    (buttonPhase s b).1.enclosure1.heaterOn = s.enclosure1.heaterOn ∧
    (buttonPhase s b).1.enclosure2.heaterOn = s.enclosure2.heaterOn ∧
    ((buttonPhase s b).1.heater1Duty = s.heater1Duty ∨
      (buttonPhase s b).1.heater1Duty = 0) ∧
    ((buttonPhase s b).1.heater2Duty = s.heater2Duty ∨
      (buttonPhase s b).1.heater2Duty = 0) ∧
    (buttonPhase s b).1.tuning = s.tuning ∧
    (buttonPhase s b).1.buzzerLocked = s.buzzerLocked ∧
    ((buttonPhase s b).1.screenIndex = s.screenIndex ∨
      (buttonPhase s b).1.screenIndex ∈
        [10, 11, 12, 13, 3, 99, 26, 36, 24, 20, 25, 34, 30, 35]) := by
  unfold buttonPhase
  simp only []
  split_ifs
  · have h := pressDispatch_pres { s with encoderButtonPressed := true }
    simp_all
  · simp
  · simp

lemma backPhase_pres (s : SysState) (b : Bool) :
    (backPhase s b).enclosure1 = s.enclosure1 ∧
    (backPhase s b).enclosure2 = s.enclosure2 ∧
    (backPhase s b).heater1Duty = s.heater1Duty ∧
    (backPhase s b).heater2Duty = s.heater2Duty ∧
    (backPhase s b).tuning = s.tuning ∧
    (backPhase s b).buzzerLocked = s.buzzerLocked ∧
    ((backPhase s b).screenIndex = s.screenIndex ∨
      (backPhase s b).screenIndex = 100) := by
  unfold backPhase
  split_ifs <;> simp

lemma act26_fields (s : SysState) :
    (act26 s).1.enclosure1 = s.enclosure1 ∧
    (act26 s).1.enclosure2 = s.enclosure2 ∧
    (act26 s).1.heater1Duty = s.heater1Duty ∧
    (act26 s).1.heater2Duty = s.heater2Duty ∧
    (act26 s).1.tuning = s.tuning ∧
    (act26 s).1.buzzerLocked = s.buzzerLocked ∧
    (act26 s).1.screenIndex = s.screenIndex := by
  unfold act26
  exact ⟨rfl, rfl, rfl, rfl, rfl, rfl, rfl⟩

lemma act36_fields (s : SysState) :
    (act36 s).1.enclosure1 = s.enclosure1 ∧
    (act36 s).1.enclosure2 = s.enclosure2 ∧
    (act36 s).1.heater1Duty = s.heater1Duty ∧
    (act36 s).1.heater2Duty = s.heater2Duty ∧
    (act36 s).1.tuning = s.tuning ∧
    (act36 s).1.buzzerLocked = s.buzzerLocked ∧
    (act36 s).1.screenIndex = s.screenIndex := by
  unfold act36
  exact ⟨rfl, rfl, rfl, rfl, rfl, rfl, rfl⟩

lemma act24_fields (s : SysState) :
    (act24 s).1.enclosure1.heaterOn = s.enclosure1.heaterOn ∧
    (act24 s).1.enclosure2 = s.enclosure2 ∧
    (act24 s).1.heater1Duty = s.heater1Duty ∧
    (act24 s).1.heater2Duty = s.heater2Duty ∧
    (act24 s).1.tuning = s.tuning ∧
    (act24 s).1.buzzerLocked = s.buzzerLocked ∧
    (act24 s).1.screenIndex = s.screenIndex := by
  unfold act24
  exact ⟨rfl, rfl, rfl, rfl, rfl, rfl, rfl⟩

lemma act34_fields (s : SysState) :
    (act34 s).1.enclosure1 = s.enclosure1 ∧
    (act34 s).1.enclosure2.heaterOn = s.enclosure2.heaterOn ∧
    (act34 s).1.heater1Duty = s.heater1Duty ∧
    (act34 s).1.heater2Duty = s.heater2Duty ∧
    (act34 s).1.tuning = s.tuning ∧
    (act34 s).1.buzzerLocked = s.buzzerLocked ∧
    (act34 s).1.screenIndex = s.screenIndex := by
  unfold act34
  exact ⟨rfl, rfl, rfl, rfl, rfl, rfl, rfl⟩

lemma act25_fields (s : SysState) :
    (act25 s).1.enclosure1 = s.enclosure1 ∧
    (act25 s).1.enclosure2 = s.enclosure2 ∧
    (act25 s).1.heater1Duty = s.heater1Duty ∧
    (act25 s).1.heater2Duty = s.heater2Duty ∧
    (act25 s).1.tuning = s.tuning ∧
    (act25 s).1.buzzerLocked = s.buzzerLocked ∧
    (act25 s).1.screenIndex = s.screenIndex := by
  unfold act25
  exact ⟨rfl, rfl, rfl, rfl, rfl, rfl, rfl⟩

lemma act35_fields (s : SysState) :
    (act35 s).1.enclosure1 = s.enclosure1 ∧
    (act35 s).1.enclosure2 = s.enclosure2 ∧
    (act35 s).1.heater1Duty = s.heater1Duty ∧
    (act35 s).1.heater2Duty = s.heater2Duty ∧
    (act35 s).1.tuning = s.tuning ∧
    (act35 s).1.buzzerLocked = s.buzzerLocked ∧
    (act35 s).1.screenIndex = s.screenIndex := by
  unfold act35
  exact ⟨rfl, rfl, rfl, rfl, rfl, rfl, rfl⟩

lemma act20_fields (s : SysState) :
    (act20 s).1.enclosure1.heaterOn = s.enclosure1.heaterOn ∧
    (act20 s).1.enclosure2 = s.enclosure2 ∧
    (act20 s).1.heater1Duty = s.heater1Duty ∧
    (act20 s).1.heater2Duty = s.heater2Duty ∧
    (act20 s).1.tuning = s.tuning ∧
    (act20 s).1.buzzerLocked = s.buzzerLocked ∧
    (act20 s).1.screenIndex = 21 := by
  unfold act20
  exact ⟨rfl, rfl, rfl, rfl, rfl, rfl, rfl⟩

lemma act21_fields (s : SysState) :
    (act21 s).1.enclosure1.heaterOn = s.enclosure1.heaterOn ∧
    (act21 s).1.enclosure2 = s.enclosure2 ∧
    (act21 s).1.heater1Duty = s.heater1Duty ∧
    (act21 s).1.heater2Duty = s.heater2Duty ∧
    (act21 s).1.tuning = s.tuning ∧
    (act21 s).1.buzzerLocked = s.buzzerLocked ∧
    (act21 s).1.screenIndex = s.screenIndex := by
  unfold act21
  exact ⟨rfl, rfl, rfl, rfl, rfl, rfl, rfl⟩

lemma act30_fields (s : SysState) :
    (act30 s).1.enclosure1 = s.enclosure1 ∧
    (act30 s).1.enclosure2.heaterOn = s.enclosure2.heaterOn ∧
    (act30 s).1.heater1Duty = s.heater1Duty ∧
    (act30 s).1.heater2Duty = s.heater2Duty ∧
    (act30 s).1.tuning = s.tuning ∧
    (act30 s).1.buzzerLocked = s.buzzerLocked ∧
    (act30 s).1.screenIndex = 31 := by
  unfold act30
  exact ⟨rfl, rfl, rfl, rfl, rfl, rfl, rfl⟩

lemma act31_fields (s : SysState) :
    (act31 s).1.enclosure1 = s.enclosure1 ∧
    (act31 s).1.enclosure2.heaterOn = s.enclosure2.heaterOn ∧
    (act31 s).1.heater1Duty = s.heater1Duty ∧
    (act31 s).1.heater2Duty = s.heater2Duty ∧
    (act31 s).1.tuning = s.tuning ∧
    (act31 s).1.buzzerLocked = s.buzzerLocked ∧
    (act31 s).1.screenIndex = s.screenIndex := by
  unfold act31
  exact ⟨rfl, rfl, rfl, rfl, rfl, rfl, rfl⟩

lemma screenPhase_pres (s : SysState) (now : Nat)
    (h22 : s.screenIndex ≠ 22) (h32 : s.screenIndex ≠ 32) :
    (screenPhase s now).1.enclosure1.heaterOn = s.enclosure1.heaterOn ∧
    (screenPhase s now).1.enclosure2.heaterOn = s.enclosure2.heaterOn ∧
    (screenPhase s now).1.heater1Duty = s.heater1Duty ∧
    (screenPhase s now).1.heater2Duty = s.heater2Duty ∧
    (screenPhase s now).1.tuning = s.tuning ∧
    (screenPhase s now).1.buzzerLocked = s.buzzerLocked ∧
    ((screenPhase s now).1.screenIndex = s.screenIndex ∨
      (screenPhase s now).1.screenIndex ∈ [21, 23, 31, 33]) := by
  by_cases h26 : s.screenIndex = 26
  · simp [screenPhase, h26, act26]
  by_cases h36 : s.screenIndex = 36
  · simp [screenPhase, h26, h36, act36]
  by_cases h24 : s.screenIndex = 24
  · simp [screenPhase, h26, h36, h24, act24]
  by_cases h34 : s.screenIndex = 34
  · simp [screenPhase, h26, h36, h24, h34, act34]
  by_cases h25 : s.screenIndex = 25
  · simp [screenPhase, h26, h36, h24, h34, h25, act25]
  by_cases h35 : s.screenIndex = 35
  · simp [screenPhase, h26, h36, h24, h34, h25, h35, act35]
  by_cases h20 : s.screenIndex = 20
  · simp [screenPhase, h26, h36, h24, h34, h25, h35, h20, act20]
  by_cases h21 : s.screenIndex = 21
  · simp [screenPhase, h26, h36, h24, h34, h25, h35, h20, h21, act21]
  by_cases h30 : s.screenIndex = 30
  · simp [screenPhase, h26, h36, h24, h34, h25, h35, h20, h21, h22, h30,
      act30]
  by_cases h31 : s.screenIndex = 31
  · simp [screenPhase, h26, h36, h24, h34, h25, h35, h20, h21, h22, h30,
      h31, act31]
  simp [screenPhase, h26, h36, h24, h34, h25, h35, h20, h21, h22, h30,
    h31, h32]

lemma timerPhase1_pres (s : SysState) (now : Nat) :
    (timerPhase1 s now).1.tuning = s.tuning ∧
    (timerPhase1 s now).1.screenIndex = s.screenIndex ∧
    (timerPhase1 s now).1.enclosure2 = s.enclosure2 ∧
    (timerPhase1 s now).1.heater2Duty = s.heater2Duty := by
  unfold timerPhase1
  simp only []
  split_ifs <;> exact ⟨rfl, rfl, rfl, rfl⟩

lemma timerPhase2_pres (s : SysState) (now : Nat) :
    (timerPhase2 s now).1.tuning = s.tuning ∧
    (timerPhase2 s now).1.screenIndex = s.screenIndex ∧
    (timerPhase2 s now).1.enclosure1 = s.enclosure1 ∧
    (timerPhase2 s now).1.heater1Duty = s.heater1Duty := by
  unfold timerPhase2
  simp only []
  split_ifs <;> exact ⟨rfl, rfl, rfl, rfl⟩

lemma timerPhase1_heaterOff (s : SysState) (now : Nat)
    (h : s.enclosure1.heaterOn = false) :
    timerPhase1 s now = (s, false, false) := by
  unfold timerPhase1
  simp only []
  rw [if_neg]
  simp [h]

lemma timerPhase2_heaterOff (s : SysState) (now : Nat)
    (h : s.enclosure2.heaterOn = false) :
    timerPhase2 s now = (s, false, false) := by
  unfold timerPhase2
  simp only []
  rw [if_neg]
  simp [h]

/-- The states `loop()` can actually be in never carry `tuning` set (the
variable is initialised false and no statement assigns it) and never sit
on the timer-arming screens 22/32 (no transition in the program assigns
`screenIndex = 22` or `32`, so those arming blocks are dead code). -/
def StateOK (s : SysState) : Prop :=
  s.tuning = false ∧ s.screenIndex ≠ 22 ∧ s.screenIndex ≠ 32

lemma loopStep_ok (pid1 pid2 : Rat → Rat → Int) (s : SysState)
    (i : CycleInput) (h : StateOK s) :
    StateOK (loopStep pid1 pid2 s i).1 := by
  obtain ⟨ht, h22, h32⟩ := h
  obtain ⟨it, is'⟩ := ingestPhase_pres s i
  obtain ⟨ct, cs⟩ := controlPhase_pres pid1 pid2 (ingestPhase s i)
  obtain ⟨-, -, -, -, nt, -, ns⟩ :=
    navPhase_pres (controlPhase pid1 pid2 (ingestPhase s i)).1 i.encoderRaw
  obtain ⟨-, -, -, -, bt, -, bs⟩ :=
    buttonPhase_pres
      (navPhase (controlPhase pid1 pid2 (ingestPhase s i)).1 i.encoderRaw)
      i.encoderSw
  obtain ⟨-, -, -, -, kt, -, ks⟩ :=
    backPhase_pres
      (buttonPhase
        (navPhase (controlPhase pid1 pid2 (ingestPhase s i)).1 i.encoderRaw)
        i.encoderSw).1 i.backSw
  set s4 :=
    backPhase
      (buttonPhase
        (navPhase (controlPhase pid1 pid2 (ingestPhase s i)).1 i.encoderRaw)
        i.encoderSw).1 i.backSw with hs4
  have h4t : s4.tuning = false := by
    rw [kt, bt, nt, ct, it, ht]
  have hb : (buttonPhase
      (navPhase (controlPhase pid1 pid2 (ingestPhase s i)).1 i.encoderRaw)
      i.encoderSw).1.screenIndex ≠ 22 ∧
      (buttonPhase
        (navPhase (controlPhase pid1 pid2 (ingestPhase s i)).1 i.encoderRaw)
        i.encoderSw).1.screenIndex ≠ 32 := by
    rcases bs with bs | bs
    · rw [bs, ns, cs, is']
      exact ⟨h22, h32⟩
    · simp only [List.mem_cons, List.not_mem_nil, or_false] at bs
      rcases bs with h | h | h | h | h | h | h | h | h | h | h | h | h | h <;>
        rw [h] <;> exact ⟨by decide, by decide⟩
  have h4s : s4.screenIndex ≠ 22 ∧ s4.screenIndex ≠ 32 := by
    rcases ks with ks | ks
    · rw [ks]
      exact hb
    · rw [ks]
      exact ⟨by decide, by decide⟩
  obtain ⟨-, -, -, -, st, -, ss⟩ := screenPhase_pres s4 i.now h4s.1 h4s.2
  obtain ⟨t1t, t1s, -, -⟩ := timerPhase1_pres (screenPhase s4 i.now).1 i.now
  obtain ⟨t2t, t2s, -, -⟩ :=
    timerPhase2_pres (timerPhase1 (screenPhase s4 i.now).1 i.now).1 i.now
  have hfin : (loopStep pid1 pid2 s i).1 =
      (timerPhase2 (timerPhase1 (screenPhase s4 i.now).1 i.now).1 i.now).1 :=
    rfl
  rw [hfin]
  refine ⟨?_, ?_, ?_⟩
  · rw [t2t, t1t, st, h4t]
  · rw [t2s, t1s]
    rcases ss with ss | ss
    · rw [ss]
      exact h4s.1
    · simp only [List.mem_cons, List.not_mem_nil, or_false] at ss
      rcases ss with h | h | h | h <;> rw [h] <;> decide
  · rw [t2s, t1s]
    rcases ss with ss | ss
    · rw [ss]
      exact h4s.2
    · simp only [List.mem_cons, List.not_mem_nil, or_false] at ss
      rcases ss with h | h | h | h <;> rw [h] <;> decide

/-- Every state reachable from boot satisfies `StateOK`. -/
theorem reachable_ok (s : SysState) (h : Reachable s) : StateOK s := by
  induction h with
  | init => exact ⟨rfl, by decide, by decide⟩
  | step pid1 pid2 i hr ih => exact loopStep_ok pid1 pid2 _ i ih

lemma controlPhase_overheat (p q : Rat → Rat → Int) (s : SysState)
    (ht : s.tuning = false)
    (h : 130 ≤ s.enclosure1.currentTemp ∨ 130 ≤ s.enclosure2.currentTemp) :
    (controlPhase p q s).1.enclosure1.heaterOn = false ∧
    (controlPhase p q s).1.enclosure2.heaterOn = false ∧
    (controlPhase p q s).1.heater1Duty = 0 ∧
    (controlPhase p q s).1.heater2Duty = 0 ∧
    (controlPhase p q s).1.buzzerLocked = true ∧
    (controlPhase p q s).2 = true := by
  simp [controlPhase, ht, h]

lemma controlPhase_run (p q : Rat → Rat → Int) (s : SysState)
    (ht : s.tuning = false)
    (h1 : s.enclosure1.currentTemp < 130)
    (h2 : s.enclosure2.currentTemp < 130) :
    (controlPhase p q s).1.enclosure1.heaterOn = true ∧
    (controlPhase p q s).1.enclosure2.heaterOn = true ∧
    (controlPhase p q s).1.heater1Duty =
      p s.enclosure1.currentTemp s.enclosure1.setpoint ∧
    (controlPhase p q s).1.heater2Duty =
      q s.enclosure2.currentTemp s.enclosure2.setpoint ∧
    (controlPhase p q s).1.enclosure1.output =
      p s.enclosure1.currentTemp s.enclosure1.setpoint ∧
    (controlPhase p q s).1.enclosure2.output =
      q s.enclosure2.currentTemp s.enclosure2.setpoint ∧
    (controlPhase p q s).2 = false := by
  have hc : ¬(130 ≤ s.enclosure1.currentTemp ∨
      130 ≤ s.enclosure2.currentTemp) := by
    push_neg
    exact ⟨h1, h2⟩
  simp [controlPhase, ht, hc]

lemma mid_screen_ok (pid1 pid2 : Rat → Rat → Int) (s : SysState)
    (i : CycleInput) (h22 : s.screenIndex ≠ 22) (h32 : s.screenIndex ≠ 32) :
    (backPhase (buttonPhase (navPhase (controlPhase pid1 pid2
        (ingestPhase s i)).1 i.encoderRaw) i.encoderSw).1
        i.backSw).screenIndex ≠ 22 ∧
    (backPhase (buttonPhase (navPhase (controlPhase pid1 pid2
        (ingestPhase s i)).1 i.encoderRaw) i.encoderSw).1
        i.backSw).screenIndex ≠ 32 := by
  obtain ⟨-, is'⟩ := ingestPhase_pres s i
  obtain ⟨-, cs⟩ := controlPhase_pres pid1 pid2 (ingestPhase s i)
  obtain ⟨-, -, -, -, -, -, ns⟩ :=
    navPhase_pres (controlPhase pid1 pid2 (ingestPhase s i)).1 i.encoderRaw
  obtain ⟨-, -, -, -, -, -, bs⟩ :=
    buttonPhase_pres
      (navPhase (controlPhase pid1 pid2 (ingestPhase s i)).1 i.encoderRaw)
      i.encoderSw
  obtain ⟨-, -, -, -, -, -, ks⟩ :=
    backPhase_pres
      (buttonPhase
        (navPhase (controlPhase pid1 pid2 (ingestPhase s i)).1 i.encoderRaw)
        i.encoderSw).1 i.backSw
  have hb : (buttonPhase
      (navPhase (controlPhase pid1 pid2 (ingestPhase s i)).1 i.encoderRaw)
      i.encoderSw).1.screenIndex ≠ 22 ∧
      (buttonPhase
        (navPhase (controlPhase pid1 pid2 (ingestPhase s i)).1 i.encoderRaw)
        i.encoderSw).1.screenIndex ≠ 32 := by
    rcases bs with bs | bs
    · rw [bs, ns, cs, is']
      exact ⟨h22, h32⟩
    · simp only [List.mem_cons, List.not_mem_nil, or_false] at bs
      rcases bs with h | h | h | h | h | h | h | h | h | h | h | h | h | h <;>
        rw [h] <;> exact ⟨by decide, by decide⟩
  rcases ks with ks | ks
  · rw [ks]
    exact hb
  · rw [ks]
    exact ⟨by decide, by decide⟩

/-- C1: in any reachable state, if the temperature used by the control
step this cycle (the cycle's reading, or the retained value when the
sensor is unavailable) is at least 130 °F for either zone, then at the
end of that same cycle both zones' `heaterOn` are false and both heater
channels hold 0, regardless of mode. -/
theorem overheat_forces_shutdown (pid1 pid2 : Rat → Rat → Int)
    (s : SysState) (i : CycleInput) (hs : Reachable s)
    (h : 130 ≤ (ingestPhase s i).enclosure1.currentTemp ∨
      130 ≤ (ingestPhase s i).enclosure2.currentTemp) :
    (loopStep pid1 pid2 s i).1.enclosure1.heaterOn = false ∧
    (loopStep pid1 pid2 s i).1.enclosure2.heaterOn = false ∧
    (loopStep pid1 pid2 s i).1.heater1Duty = 0 ∧
    (loopStep pid1 pid2 s i).1.heater2Duty = 0 := by
  obtain ⟨ht, h22, h32⟩ := reachable_ok s hs
  have it : (ingestPhase s i).tuning = false := by
    rw [(ingestPhase_pres s i).1, ht]
  obtain ⟨c1, c2, c3, c4, -, -⟩ :=
    controlPhase_overheat pid1 pid2 (ingestPhase s i) it h
  obtain ⟨ne1, ne2, nd1, nd2, -, -, -⟩ :=
    navPhase_pres (controlPhase pid1 pid2 (ingestPhase s i)).1 i.encoderRaw
  obtain ⟨be1, be2, bd1, bd2, -, -, -⟩ :=
    buttonPhase_pres
      (navPhase (controlPhase pid1 pid2 (ingestPhase s i)).1 i.encoderRaw)
      i.encoderSw
  obtain ⟨ke1, ke2, kd1, kd2, -, -, -⟩ :=
    backPhase_pres
      (buttonPhase
        (navPhase (controlPhase pid1 pid2 (ingestPhase s i)).1 i.encoderRaw)
        i.encoderSw).1 i.backSw
  have h4s := mid_screen_ok pid1 pid2 s i h22 h32
  set s4 :=
    backPhase
      (buttonPhase
        (navPhase (controlPhase pid1 pid2 (ingestPhase s i)).1 i.encoderRaw)
        i.encoderSw).1 i.backSw with hs4
  have h4e1 : s4.enclosure1.heaterOn = false := by
    rw [ke1, be1, ne1, c1]
  have h4e2 : s4.enclosure2.heaterOn = false := by
    rw [ke2, be2, ne2, c2]
  have h4d1 : s4.heater1Duty = 0 := by
    rcases bd1 with b | b
    · rw [kd1, b, nd1, c3]
    · rw [kd1, b]
  have h4d2 : s4.heater2Duty = 0 := by
    rcases bd2 with b | b
    · rw [kd2, b, nd2, c4]
    · rw [kd2, b]
  obtain ⟨se1, se2, sd1, sd2, -, -, -⟩ :=
    screenPhase_pres s4 i.now h4s.1 h4s.2
  have s5e1 : (screenPhase s4 i.now).1.enclosure1.heaterOn = false := by
    rw [se1, h4e1]
  have s5e2 : (screenPhase s4 i.now).1.enclosure2.heaterOn = false := by
    rw [se2, h4e2]
  have s5d1 : (screenPhase s4 i.now).1.heater1Duty = 0 := by
    rw [sd1, h4d1]
  have s5d2 : (screenPhase s4 i.now).1.heater2Duty = 0 := by
    rw [sd2, h4d2]
  have t1 := timerPhase1_heaterOff (screenPhase s4 i.now).1 i.now s5e1
  have t1e2 : (timerPhase1 (screenPhase s4 i.now).1 i.now).1.enclosure2.heaterOn
      = false := by
    rw [t1]
    exact s5e2
  have t2 := timerPhase2_heaterOff
    (timerPhase1 (screenPhase s4 i.now).1 i.now).1 i.now t1e2
  have hY : (timerPhase2 (timerPhase1 (screenPhase s4 i.now).1 i.now).1
      i.now).1 = (screenPhase s4 i.now).1 := by
    rw [t2, t1]
  have hfin : (loopStep pid1 pid2 s i).1 =
      (timerPhase2 (timerPhase1 (screenPhase s4 i.now).1 i.now).1 i.now).1 :=
    rfl
  rw [hfin, hY]
  exact ⟨s5e1, s5e2, s5d1, s5d2⟩

/-- Witness for `overheat_forces_shutdown`: from the boot state, a cycle
whose enclosure-1 sensor reads 135 °F ends with both heaters off and both
channels at 0. -/
theorem overheat_forces_shutdown_witness :
    (130 ≤ (ingestPhase initState inpOverheat).enclosure1.currentTemp ∨
      130 ≤ (ingestPhase initState inpOverheat).enclosure2.currentTemp) ∧
    ((loopStep pidConst pidConst initState inpOverheat).1.enclosure1.heaterOn
        = false ∧
      (loopStep pidConst pidConst initState inpOverheat).1.enclosure2.heaterOn
        = false ∧
      (loopStep pidConst pidConst initState inpOverheat).1.heater1Duty = 0 ∧
      (loopStep pidConst pidConst initState inpOverheat).1.heater2Duty = 0) :=
  ⟨Or.inl (by decide),
    overheat_forces_shutdown pidConst pidConst initState inpOverheat
      Reachable.init (Or.inl (by decide))⟩

/-- C10: in any control cycle whose (post-ingest) temperatures are both
below 130 °F and with `tuning` false, the control step sets
`heaterOn = true` for both zones and writes the injected PID duty to both
heater channels — for an arbitrary prior state, so heater-off states left
by the SHUT ALL OFF menu action or by a completed timer do not survive
into the control step of the next cycle. -/
theorem control_step_rearms (pid1 pid2 : Rat → Rat → Int) (s : SysState)
    (ht : s.tuning = false)
    (h1 : s.enclosure1.currentTemp < 130)
    (h2 : s.enclosure2.currentTemp < 130) :
    (controlPhase pid1 pid2 s).1.enclosure1.heaterOn = true ∧
    (controlPhase pid1 pid2 s).1.enclosure2.heaterOn = true ∧
    (controlPhase pid1 pid2 s).1.heater1Duty =
      pid1 s.enclosure1.currentTemp s.enclosure1.setpoint ∧
    (controlPhase pid1 pid2 s).1.heater2Duty =
      pid2 s.enclosure2.currentTemp s.enclosure2.setpoint := by
  obtain ⟨a, b, c, d, -, -, -⟩ := controlPhase_run pid1 pid2 s ht h1 h2
  exact ⟨a, b, c, d⟩

/-- Witness for `control_step_rearms`: at the boot state (both heaters
off, as the SHUT ALL OFF action leaves them) a control step with cool
readings turns both heaters on with the PID duty 100. -/
theorem control_step_rearms_witness :
    initState.tuning = false ∧
    initState.enclosure1.currentTemp < 130 ∧
    initState.enclosure2.currentTemp < 130 ∧
    initState.enclosure1.heaterOn = false ∧
    initState.enclosure2.heaterOn = false ∧
    ((controlPhase pidConst pidConst initState).1.enclosure1.heaterOn = true ∧
      (controlPhase pidConst pidConst initState).1.enclosure2.heaterOn
        = true ∧
      (controlPhase pidConst pidConst initState).1.heater1Duty =
        pidConst initState.enclosure1.currentTemp
          initState.enclosure1.setpoint ∧
      (controlPhase pidConst pidConst initState).1.heater2Duty =
        pidConst initState.enclosure2.currentTemp
          initState.enclosure2.setpoint) :=
  ⟨rfl, by decide, by decide, rfl, rfl,
    control_step_rearms pidConst pidConst initState rfl (by decide)
      (by decide)⟩

/-- C2 counterexample: the overheat shutdown is not latched.  Along a
concrete trace from boot (enter the enclosure-1 submenu, switch zone 1 to
manual mode, then overheat at 135 °F on cycle 4), cycle 4 ends in the
shutdown state — both heaters off, channels 0, buzzer lock set — yet on
cycle 5, whose reading is 120 °F, `heaterOn` is true again and heater
channel 1 carries the nonzero PID duty 100, with no external reset. -/
theorem overheat_no_latch_counterexample :
    ((loopStep pidConst pidConst c2s3 c2i4).2.overheat = true ∧
      c2s4.enclosure1.heaterOn = false ∧
      c2s4.enclosure2.heaterOn = false ∧
      c2s4.heater1Duty = 0 ∧
      c2s4.heater2Duty = 0 ∧
      c2s4.buzzerLocked = true) ∧
    c2s5.enclosure1.heaterOn = true ∧
    c2s5.heater1Duty = 100 := by
  decide

/-- C2 amended: the overheat shutdown lasts only while a reading of at
least 130 °F persists.  From any shutdown state (both heaters off, buzzer
lock set, `tuning` false), the first cycle whose ingested temperatures are
both below 130 °F has its control step set both zones' `heaterOn = true`
and write the live PID duty to both channels again — there is no latch
and no external reset is required. -/
theorem overheat_shutdown_not_latched (pid1 pid2 : Rat → Rat → Int)
    (s : SysState) (i : CycleInput)
    (hoff1 : s.enclosure1.heaterOn = false)
    (hoff2 : s.enclosure2.heaterOn = false)
    (hlock : s.buzzerLocked = true)
    (ht : s.tuning = false)
    (h1 : (ingestPhase s i).enclosure1.currentTemp < 130)
    (h2 : (ingestPhase s i).enclosure2.currentTemp < 130) :
    (controlPhase pid1 pid2 (ingestPhase s i)).1.enclosure1.heaterOn
        = true ∧
    (controlPhase pid1 pid2 (ingestPhase s i)).1.enclosure2.heaterOn
        = true ∧
    (controlPhase pid1 pid2 (ingestPhase s i)).1.heater1Duty =
      pid1 (ingestPhase s i).enclosure1.currentTemp
        s.enclosure1.setpoint ∧
    (controlPhase pid1 pid2 (ingestPhase s i)).1.heater2Duty =
      pid2 (ingestPhase s i).enclosure2.currentTemp
        s.enclosure2.setpoint := by
  have it : (ingestPhase s i).tuning = false := by
    rw [(ingestPhase_pres s i).1, ht]
  obtain ⟨a, b, c, d, -, -, -⟩ :=
    controlPhase_run pid1 pid2 (ingestPhase s i) it h1 h2
  exact ⟨a, b, c, d⟩

/-- Witness for `overheat_shutdown_not_latched`: applied to the concrete
post-overheat state `c2s4` and the cool cycle-5 input. -/
theorem overheat_shutdown_not_latched_witness :
    c2s4.enclosure1.heaterOn = false ∧
    c2s4.enclosure2.heaterOn = false ∧
    c2s4.buzzerLocked = true ∧
    c2s4.tuning = false ∧
    (ingestPhase c2s4 c2i5).enclosure1.currentTemp < 130 ∧
    (ingestPhase c2s4 c2i5).enclosure2.currentTemp < 130 ∧
    ((controlPhase pidConst pidConst (ingestPhase c2s4 c2i5)).1.enclosure1.heaterOn
        = true ∧
      (controlPhase pidConst pidConst (ingestPhase c2s4 c2i5)).1.enclosure2.heaterOn
        = true ∧
      (controlPhase pidConst pidConst (ingestPhase c2s4 c2i5)).1.heater1Duty =
        pidConst (ingestPhase c2s4 c2i5).enclosure1.currentTemp
          c2s4.enclosure1.setpoint ∧
      (controlPhase pidConst pidConst (ingestPhase c2s4 c2i5)).1.heater2Duty =
        pidConst (ingestPhase c2s4 c2i5).enclosure2.currentTemp
          c2s4.enclosure2.setpoint) :=
  ⟨by decide, by decide, by decide, by decide, by decide, by decide,
    overheat_shutdown_not_latched pidConst pidConst c2s4 c2i5 (by decide)
      (by decide) (by decide) (by decide) (by decide) (by decide)⟩

lemma elapsedSec_le (now start : Nat) : elapsedSec now start ≤ 4294967 := by
  unfold elapsedSec usub32
  omega

lemma remaining_expired (T e : Nat) (he : e ≤ 4294967) (hT : T ≤ e) :
    remainingSec T e = 0 ∨ 30 < remainingSec T e := by
  unfold remainingSec usub32
  omega

/-- C3 counterexample: in an armed timer-mode zone (1000 s timer,
5 s elapsed) an overheat reading makes `heaterOn` false well before
`now - S ≥ T`, refuting "never becomes false before that point". -/
theorem timer_never_early_counterexample :
    c3s.enclosure1.useTimer = true ∧
    elapsedSec c3i.now c3s.enclosure1.timerStart <
      c3s.enclosure1.timerSeconds ∧
    (loopStep pidConst pidConst c3s c3i).1.enclosure1.heaterOn = false := by
  decide

/-- C3 amended: the timer check itself clears an armed zone's `heaterOn`
(and writes duty 0) exactly when the elapsed whole seconds
`(now - timerStart) / 1000` reach `timerSeconds`, and leaves it on before
that point; `heaterOn` can still be cleared earlier in a cycle by the
overheat failsafe. -/
theorem timer_expiry_clears_heater (s : SysState) (now : Nat)
    (hu : s.enclosure1.useTimer = true) (hh : s.enclosure1.heaterOn = true) :
    ((timerPhase1 s now).1.enclosure1.heaterOn = false ↔
      s.enclosure1.timerSeconds ≤ elapsedSec now s.enclosure1.timerStart) ∧
    (s.enclosure1.timerSeconds ≤ elapsedSec now s.enclosure1.timerStart →
      (timerPhase1 s now).1.heater1Duty = 0) := by
  unfold timerPhase1
  simp only []
  rw [if_pos (⟨hu, hh⟩ :
    s.enclosure1.useTimer = true ∧ s.enclosure1.heaterOn = true)]
  split_ifs <;> simp_all

/-- Witness for `timer_expiry_clears_heater` at the armed state `c3s` and
an expired clock (1000 s timer, 1000 s elapsed). -/
theorem timer_expiry_clears_heater_witness :
    c3s.enclosure1.useTimer = true ∧ c3s.enclosure1.heaterOn = true ∧
    (((timerPhase1 c3s 1000000).1.enclosure1.heaterOn = false ↔
      c3s.enclosure1.timerSeconds ≤
        elapsedSec 1000000 c3s.enclosure1.timerStart) ∧
    (c3s.enclosure1.timerSeconds ≤
        elapsedSec 1000000 c3s.enclosure1.timerStart →
      (timerPhase1 c3s 1000000).1.heater1Duty = 0)) :=
  ⟨rfl, rfl, timer_expiry_clears_heater c3s 1000000 rfl rfl⟩

/-- C4 counterexample: an armed countdown whose cycles observe remaining
302 s and then 299 s crosses the 300 s mark without the five-minute
warning ever firing — the code's trigger is `remaining == 300` exactly,
not the crossing, so the warning is skipped whenever the equality second
falls between two cycles. -/
theorem fiveMin_crossing_counterexample :
    remainingSec c4s.enclosure1.timerSeconds
      (elapsedSec c4iA.now c4s.enclosure1.timerStart) = 302 ∧
    (loopStep pidConst pidConst c4s c4iA).2.fiveMin1 = false ∧
    c4sA.enclosure1.heaterOn = true ∧
    c4sA.enclosure1.useTimer = true ∧
    c4sA.buzzerLocked = false ∧
    remainingSec c4sA.enclosure1.timerSeconds
      (elapsedSec c4iB.now c4sA.enclosure1.timerStart) = 299 ∧
    (loopStep pidConst pidConst c4sA c4iB).2.fiveMin1 = false := by
  decide

/-- C4 amended: for an armed timer-mode zone the five-minute beep fires
on a cycle if and only if the computed `remaining` equals exactly 300 and
the global buzzer lock is clear; it is level-triggered on that equality,
so it never fires when the 300 s mark is skipped between cycles, and can
fire on more than one cycle observing `remaining = 300`. -/
theorem fiveMin_beep_fires_iff (s : SysState) (now : Nat)
    (hu : s.enclosure1.useTimer = true) (hh : s.enclosure1.heaterOn = true) :
    (timerPhase1 s now).2.1 = true ↔
      remainingSec s.enclosure1.timerSeconds
          (elapsedSec now s.enclosure1.timerStart) = 300 ∧
        s.buzzerLocked = false := by
  unfold timerPhase1
  simp only []
  rw [if_pos (⟨hu, hh⟩ :
    s.enclosure1.useTimer = true ∧ s.enclosure1.heaterOn = true)]
  simp

/-- Witness for `fiveMin_beep_fires_iff` at the armed state `c4s` and a
clock of 700 s (remaining exactly 300). -/
theorem fiveMin_beep_fires_iff_witness :
    c4s.enclosure1.useTimer = true ∧ c4s.enclosure1.heaterOn = true ∧
    ((timerPhase1 c4s 700000).2.1 = true ↔
      remainingSec c4s.enclosure1.timerSeconds
          (elapsedSec 700000 c4s.enclosure1.timerStart) = 300 ∧
        c4s.buzzerLocked = false) :=
  ⟨rfl, rfl, fiveMin_beep_fires_iff c4s 700000 rfl rfl⟩

/-- C5 counterexample: `buzzerLocked` is a single global shared by both
zones, so an armed zone-1 countdown can complete without its 30-second
sequence ever firing: zone 2's sequence (cycle at 80 s) sets the lock,
zone 1's only window cycle (100 s, remaining 20 s) is suppressed, and
zone 1 completes at 121 s — zero firings for that armed countdown. -/
theorem thirty_seq_counterexample :
    (loopStep pidConst pidConst c5s c5i1).2.thirty1 = false ∧
    (loopStep pidConst pidConst c5s c5i1).2.thirty2 = true ∧
    c5sA.buzzerLocked = true ∧
    0 < remainingSec c5sA.enclosure1.timerSeconds
      (elapsedSec c5i2.now c5sA.enclosure1.timerStart) ∧
    remainingSec c5sA.enclosure1.timerSeconds
      (elapsedSec c5i2.now c5sA.enclosure1.timerStart) ≤ 30 ∧
    (loopStep pidConst pidConst c5sA c5i2).2.thirty1 = false ∧
    c5sB.buzzerLocked = false ∧
    c5sB.enclosure1.timerSeconds ≤
      elapsedSec c5i3.now c5sB.enclosure1.timerStart ∧
    (loopStep pidConst pidConst c5sB c5i3).2.thirty1 = false ∧
    (loopStep pidConst pidConst c5sB c5i3).1.enclosure1.heaterOn = false := by
  decide

/-- C5 amended: for an armed timer-mode zone the 30-second sequence fires
on a cycle if and only if `remaining ∈ (0,30]` and the global
`buzzerLocked` is clear; a firing sets `buzzerLocked = true`, and the
cycle on which the timer completes resets `buzzerLocked` to false (and
clears the heater).  Because the lock is shared globally with the other
zone and the overheat alarm, exactly-once-per-countdown is not
guaranteed. -/
theorem thirty_seq_lock_protocol (s : SysState) (now : Nat)
    (hu : s.enclosure1.useTimer = true) (hh : s.enclosure1.heaterOn = true) :
    ((timerPhase1 s now).2.2 = true ↔
      (remainingSec s.enclosure1.timerSeconds
          (elapsedSec now s.enclosure1.timerStart) ≤ 30 ∧
        0 < remainingSec s.enclosure1.timerSeconds
          (elapsedSec now s.enclosure1.timerStart) ∧
        s.buzzerLocked = false)) ∧
    ((timerPhase1 s now).2.2 = true →
      (timerPhase1 s now).1.buzzerLocked = true) ∧
    (s.enclosure1.timerSeconds ≤ elapsedSec now s.enclosure1.timerStart →
      (timerPhase1 s now).1.buzzerLocked = false ∧
      (timerPhase1 s now).1.enclosure1.heaterOn = false) := by
  have hcond : s.enclosure1.useTimer = true ∧ s.enclosure1.heaterOn = true :=
    ⟨hu, hh⟩
  refine ⟨?_, ?_, ?_⟩
  · unfold timerPhase1
    simp only []
    rw [if_pos hcond]
    simp
  · intro hf
    have hth : remainingSec s.enclosure1.timerSeconds
        (elapsedSec now s.enclosure1.timerStart) ≤ 30 ∧
        0 < remainingSec s.enclosure1.timerSeconds
          (elapsedSec now s.enclosure1.timerStart) ∧
        s.buzzerLocked = false := by
      have h := hf
      unfold timerPhase1 at h
      simp only [] at h
      rw [if_pos hcond] at h
      simpa using h
    have hnex : ¬s.enclosure1.timerSeconds ≤
        elapsedSec now s.enclosure1.timerStart := by
      intro hex
      rcases remaining_expired s.enclosure1.timerSeconds
        (elapsedSec now s.enclosure1.timerStart)
        (elapsedSec_le now s.enclosure1.timerStart) hex with h0 | h30
      · omega
      · omega
    unfold timerPhase1
    simp only []
    rw [if_pos hcond]
    split_ifs <;> simp_all
  · intro hex
    unfold timerPhase1
    simp only []
    rw [if_pos hcond]
    split_ifs <;> simp_all

/-- Witness for `thirty_seq_lock_protocol` at the armed state `c5s` and a
clock of 95 s (zone-1 remaining 25 s, inside the window). -/
theorem thirty_seq_lock_protocol_witness :
    c5s.enclosure1.useTimer = true ∧ c5s.enclosure1.heaterOn = true ∧
    (((timerPhase1 c5s 95000).2.2 = true ↔
      (remainingSec c5s.enclosure1.timerSeconds
          (elapsedSec 95000 c5s.enclosure1.timerStart) ≤ 30 ∧
        0 < remainingSec c5s.enclosure1.timerSeconds
          (elapsedSec 95000 c5s.enclosure1.timerStart) ∧
        c5s.buzzerLocked = false)) ∧
    ((timerPhase1 c5s 95000).2.2 = true →
      (timerPhase1 c5s 95000).1.buzzerLocked = true) ∧
    (c5s.enclosure1.timerSeconds ≤
        elapsedSec 95000 c5s.enclosure1.timerStart →
      (timerPhase1 c5s 95000).1.buzzerLocked = false ∧
      (timerPhase1 c5s 95000).1.enclosure1.heaterOn = false)) :=
  ⟨rfl, rfl, thirty_seq_lock_protocol c5s 95000 rfl rfl⟩

/-- C6: the 56-hour manual auto-shutoff is announced by the firmware
header and by the constant `MAX_MANUAL_RUNTIME_SECONDS` (main.cpp line
79), but the constant and `manualStart` are never read anywhere in the
program.  At a manual-mode state with auto-shutoff enabled and 201 601
seconds of continuous manual runtime (one second past the ceiling), the
cycle still ends with `heaterOn = true`. -/
theorem manual_autoshutoff_missing :
    c6s.autoShutoffEnabled = true ∧
    c6s.enclosure1.useTimer = false ∧
    MAX_MANUAL_RUNTIME_SECONDS * 1000 < c6i.now - c6s.enclosure1.manualStart ∧
    (loopStep pidConst pidConst c6s c6i).1.enclosure1.heaterOn = true := by
  decide

/-- C7 counterexample: with every sensor unavailable, `currentTemp` is
retained (80 °F), but the control recompute still runs that cycle: the
zone's `heaterOn` flips from false to true and the heater channel is
rewritten from 0 to the live PID duty — refuting "no control recompute is
performed for that zone". -/
theorem sensor_unavailable_counterexample :
    c7i.sensor1 = none ∧
    (loopStep pidConst pidConst c7s c7i).1.enclosure1.currentTemp =
      c7s.enclosure1.currentTemp ∧
    c7s.enclosure1.heaterOn = false ∧
    (loopStep pidConst pidConst c7s c7i).1.enclosure1.heaterOn = true ∧
    c7s.heater1Duty = 0 ∧
    (loopStep pidConst pidConst c7s c7i).1.heater1Duty = 100 := by
  decide

/-- C7 amended: when a zone's sensor reports unavailable the zone's
`currentTemp` retains its last known value, but the control step still
runs that cycle on the retained value: with `tuning` false and both
effective temperatures below 130 °F it sets `heaterOn = true` and writes
the PID duty computed from the retained temperature. -/
theorem sensor_unavailable_retained_but_controlled
    (pid1 pid2 : Rat → Rat → Int) (s : SysState) (i : CycleInput)
    (hna : i.sensor1 = none) (ht : s.tuning = false)
    (h1 : s.enclosure1.currentTemp < 130)
    (h2 : (ingestPhase s i).enclosure2.currentTemp < 130) :
    (ingestPhase s i).enclosure1.currentTemp = s.enclosure1.currentTemp ∧
    (controlPhase pid1 pid2 (ingestPhase s i)).1.enclosure1.heaterOn = true ∧
    (controlPhase pid1 pid2 (ingestPhase s i)).1.heater1Duty =
      pid1 s.enclosure1.currentTemp s.enclosure1.setpoint := by
  have hr : (ingestPhase s i).enclosure1.currentTemp =
      s.enclosure1.currentTemp := by
    simp [ingestPhase, hna]
  have it : (ingestPhase s i).tuning = false := by
    rw [(ingestPhase_pres s i).1, ht]
  obtain ⟨a, -, c, -, -, -, -⟩ :=
    controlPhase_run pid1 pid2 (ingestPhase s i) it (by rw [hr]; exact h1) h2
  have hsp : (ingestPhase s i).enclosure1.setpoint =
      s.enclosure1.setpoint := rfl
  refine ⟨hr, a, ?_⟩
  rw [c, hr, hsp]

/-- Witness for `sensor_unavailable_retained_but_controlled` at the
concrete state `c7s` and the all-sensors-unavailable input `c7i`. -/
theorem sensor_unavailable_retained_but_controlled_witness :
    c7i.sensor1 = none ∧ c7s.tuning = false ∧
    c7s.enclosure1.currentTemp < 130 ∧
    (ingestPhase c7s c7i).enclosure2.currentTemp < 130 ∧
    ((ingestPhase c7s c7i).enclosure1.currentTemp =
        c7s.enclosure1.currentTemp ∧
      (controlPhase pidConst pidConst
        (ingestPhase c7s c7i)).1.enclosure1.heaterOn = true ∧
      (controlPhase pidConst pidConst (ingestPhase c7s c7i)).1.heater1Duty =
        pidConst c7s.enclosure1.currentTemp c7s.enclosure1.setpoint) :=
  ⟨rfl, rfl, by decide, by decide,
    sensor_unavailable_retained_but_controlled pidConst pidConst c7s c7i
      rfl rfl (by decide) (by decide)⟩

/-- C8 counterexample: on value-adjust screens the live value is
committed without any button press.  Sitting on the temperature-set
screen 24 with encoder position 10 and no press, one cycle changes the
active setpoint from 90 to 80; sitting on the humidity-limit screen 25,
one cycle changes the active limit from 65 to 40 and writes it to EEPROM
— refuting "committed only on a button-press edge". -/
theorem value_commit_counterexample :
    c8i.encoderSw = false ∧
    c8s.enclosure1.setpoint = 90 ∧
    (loopStep pidConst pidConst c8s c8i).1.enclosure1.setpoint = 80 ∧
    c8s25.humidityLimit1 = 65 ∧
    (loopStep pidConst pidConst c8s25 c8i).1.humidityLimit1 = 40 ∧
    (loopStep pidConst pidConst c8s25 c8i).2.eeprom = [(0, 40)] := by
  decide

/-- C8 amended: on every cycle in which a value-adjust screen is
displayed, the screen action commits the live encoder-derived value into
the active setting (and for humidity limits also writes it to the
persistent store), independently of any button press; navigating away
keeps the last committed value rather than discarding it.  Shown for the
temperature-set screen 24, the humidity-limit screen 25 and the
timer-duration screen 21. -/
theorem value_adjust_commits_every_cycle (s : SysState) (now : Nat) :
    (s.screenIndex = 24 →
      (screenPhase s now).1.enclosure1.setpoint =
        ((70 + s.lastEncoderPos.natAbs % 51 : Nat) : Rat)) ∧
    (s.screenIndex = 25 →
      (screenPhase s now).1.humidityLimit1 =
        30 + (s.lastEncoderPos.natAbs % 70 : Nat) ∧
      (screenPhase s now).2 =
        [(0, (30 + (s.lastEncoderPos.natAbs % 70 : Nat) : Int))]) ∧
    (s.screenIndex = 21 →
      (screenPhase s now).1.enclosure1.timerSeconds =
        max (s.lastEncoderPos.natAbs % 289) 2 * 600) := by
  refine ⟨fun h => ?_, fun h => ?_, fun h => ?_⟩
  · simp [screenPhase, h, act24]
  · simp [screenPhase, h, act25]
  · simp [screenPhase, h, act21]

/-- Witness for `value_adjust_commits_every_cycle` at the concrete screen
-24 state `c8s` (encoder position 10, so the committed value is 80). -/
theorem value_adjust_commits_every_cycle_witness :
    c8s.screenIndex = 24 ∧
    (screenPhase c8s 1000).1.enclosure1.setpoint = 80 :=
  ⟨rfl, by
    have h := (value_adjust_commits_every_cycle c8s 1000).1 rfl
    rw [h]
    decide⟩
